import Mathlib

/-!
Verification of the keiro router (src/lib.rs, src/ext.rs) against its
specification.  The code of the router itself (registration, dispatch in
Router::serve, the service adapter, Params::find, the request extension
accessors) is embedded directly from the source.  Pattern parsing and
path matching live in the external route_recognizer crate, whose code is
not part of this repository; those functions are modelled from the spec
(section 4.1) and marked as such below.

Async handlers are embedded as plain functions from a request to
`Except ε Response`: serve in the source builds and returns the future
of the handler unchanged, so awaiting commutes with dispatch and the
value-level behaviour is captured by direct application.
-/

/-- HTTP methods the router can register handlers for (Router::get,
post, put, delete, patch in src/lib.rs). -/
inductive Method where
  | GET
  | POST
  | PUT
  | DELETE
  | PATCH
deriving DecidableEq, Repr

/-- An HTTP response: the hyper Response type reduced to the fields the
router itself constructs and the spec talks about (status code and
body; an empty hyper Body is the empty string). -/
structure Response where
  status : Nat
  body : String
deriving DecidableEq, Repr

/-- Captured route parameters: the Params type of route_recognizer, an
ordered collection of (name, value) string pairs. -/
abbrev Params := List (String × String)

/-- Embeds Params::find (src/lib.rs lines 430-432): look up a captured
value by parameter name. -/
def Params.find : Params → String → Option String
  | [], _ => none
  | (k, v) :: rest, key => if k = key then some v else Params.find rest key

/-- One segment of a parsed route pattern.  Modelled from the spec:
Literal(text), Param(name), Wildcard(optional name) (spec section 3). -/
inductive Segment where
  | literal (text : String)
  | param (name : String)
  | wildcard (name : Option String)
deriving DecidableEq, Repr

/-- Helper for splitting on the slash delimiter, structural over the
character list so that concrete instances reduce in the kernel. -/
def splitSlashAux : List Char → List Char → List String
  | [], acc => [String.mk acc.reverse]
  | c :: cs, acc =>
      if c = '/' then String.mk acc.reverse :: splitSlashAux cs []
      else splitSlashAux cs (c :: acc)

/-- Modelled from the spec: split a path or pattern into its
slash-separated segments ("parses pattern text split on /" and "Path is
split into segments identically to patterns", spec section 4.1). -/
def splitSlash (s : String) : List String :=
  splitSlashAux s.toList []

/-- Modelled from the spec: classify one pattern segment — a parameter
marker prefix gives Param(name), a wildcard marker prefix gives
Wildcard(name-or-anonymous), anything else is a literal (spec
sections 4.1 and 6). -/
def parseSegment (s : String) : Segment :=
  match s.toList with
  | ':' :: rest => Segment.param (String.mk rest)
  | '*' :: rest =>
      Segment.wildcard (if rest.isEmpty then none else some (String.mk rest))
  | _ => Segment.literal s

/-- Modelled from the spec: parse a route pattern into its segments
(the pattern parsing of route_recognizer is not in this repository). -/
def parsePattern (pattern : String) : List Segment :=
  (splitSlash pattern).map parseSegment

/-- Join path segments back with the slash delimiter, for the wildcard
capture ("joined back with the delimiter", spec section 4.1). -/
def joinSlash : List String → String
  | [] => ""
  | [s] => s
  | s :: rest => s ++ "/" ++ joinSlash rest

/-- Modelled from the spec: positional matching of a parsed pattern
against path segments (the matcher of route_recognizer is not in this
repository).  Literal segments require exact equality; a Param segment
consumes exactly one path segment, captured under its name; a terminal
Wildcard consumes all remaining segments joined by the delimiter, the
anonymous wildcard contributing no named capture (spec section 4.1). -/
def matchSegments : List Segment → List String → Option Params
  | [Segment.wildcard n], rest =>
      match n with
      | some name => some [(name, joinSlash rest)]
      | none => some []
  | [], [] => some []
  | [], _ :: _ => none
  | _ :: _, [] => none
  | Segment.literal t :: ps, s :: ss =>
      if t = s then matchSegments ps ss else none
  | Segment.param name :: ps, s :: ss =>
      (matchSegments ps ss).map (fun rest => (name, s) :: rest)
  | Segment.wildcard _ :: _ :: _, _ :: _ => none

/-- A request context: the hyper Request type reduced to the parts the
router reads and writes — the method, the URI path, and the typed
extension slots the router inserts into (the Params extension and the
shared state of type `σ`, src/lib.rs lines 317-318). -/
structure Request (σ : Type) where
  method : Method
  path : String
  extParams : Option Params
  extState : Option σ

/-- Embeds RequestExt::params (src/ext.rs lines 82-84): read the Params
extension of a request. -/
def Request.params (req : Request σ) : Option Params :=
  req.extParams

/-- Embeds RequestExt::state (src/ext.rs lines 86-88): read the
shared-state extension of a request. -/
def Request.state (req : Request σ) : Option σ :=
  req.extState

/-- A handler (the Handler trait, src/lib.rs lines 341-346): given a
request context, produce a response or an error of type `ε`. -/
abbrev Handler (ε σ : Type) := Request σ → Except ε Response

/-- The route table for one method: the inner route_recognizer router
reduced to its registered (parsed pattern, handler) pairs in
registration order. -/
abbrev RouteTable (ε σ : Type) := List (List Segment × Handler ε σ)

/-- Modelled from the spec: recognize over a route table — find a
registered pattern matching the path and return its handler together
with the captured Params (spec section 4.1; the ambiguity tie-break is
an open question in spec section 9, so overlapping patterns are
resolved here by registration order). -/
def recognize (table : RouteTable ε σ) (path : String) :
    Option (Handler ε σ × Params) :=
  match table with
  | [] => none
  | (pat, h) :: rest =>
      match matchSegments pat (splitSlash path) with
      | some ps => some (h, ps)
      | none => recognize rest path

/-- The router (src/lib.rs lines 182-186): one route table per method
(the HashMap from Method to inner router, embedded as a function to an
optional table — `none` meaning the method has no entry), an optional
not-found handler, and the shared state. -/
structure Router (ε σ : Type) where
  inner : Method → Option (RouteTable ε σ)
  notFound : Option (Handler ε σ)
  state : σ

/-- Embeds Router::with_state (src/lib.rs lines 212-218): a router with
no route tables, no not-found handler, and the given state. -/
def Router.with_state (state : σ) : Router ε σ :=
  { inner := fun _ => none, notFound := none, state := state }

/-- Embeds Router::new (src/lib.rs lines 202-204): with_state applied
to the unit state. -/
def Router.new : Router ε Unit :=
  Router.with_state ()

/-- Embeds the shared body of the registration methods (src/lib.rs):
entry(method).or_insert_with(InnerRouter::new) followed by
entry.add(path, handler) — append the parsed pattern and handler to the
table of the method, creating that table on first use.  Note the
registration interface is total: it returns the updated router and has
no error path. -/
def Router.register (r : Router ε σ) (m : Method) (path : String)
    (h : Handler ε σ) : Router ε σ :=
  { r with inner := fun m' =>
      if m' = m then some (((r.inner m).getD []) ++ [(parsePattern path, h)])
      else r.inner m' }

/-- Embeds Router::get (src/lib.rs lines 221-233). -/
def Router.get (r : Router ε σ) (path : String) (h : Handler ε σ) :
    Router ε σ :=
  r.register Method.GET path h

/-- Embeds Router::post (src/lib.rs lines 236-248). -/
def Router.post (r : Router ε σ) (path : String) (h : Handler ε σ) :
    Router ε σ :=
  r.register Method.POST path h

/-- Embeds Router::not_found (src/lib.rs lines 296-303): install or
replace the fallback handler. -/
def Router.not_found (r : Router ε σ) (h : Handler ε σ) : Router ε σ :=
  { r with notFound := some h }

/-- The default not-found response the router synthesizes (src/lib.rs
lines 324 and 329): status 404 with an empty body. -/
def defaultNotFound : Response :=
  { status := 404, body := "" }

/-- Embeds Router::serve (src/lib.rs lines 305-332): look up the route
table for the method of the request; on a match, insert the captured
Params and a clone of the shared state into the request extensions and
call the matched handler; on a failed match, call the not-found handler
if one is installed, else return the default 404 response; when the
method has no table at all, return the default 404 response without
consulting the not-found handler. -/
def Router.serve (r : Router ε σ) (req : Request σ) : Except ε Response :=
  match r.inner req.method with
  | some table =>
      match recognize table req.path with
      | some (h, ps) =>
          h { req with extParams := some ps, extState := some r.state }
      | none =>
          match r.notFound with
          | some h => h req
          | none => Except.ok defaultNotFound
  | none => Except.ok defaultNotFound

/-- Embeds RouterService::call (src/lib.rs lines 385-390): dispatch
through the shared router, then convert the handler error into the
erased error type of the adapter via map_err; `into` stands for the
caller-chosen Into conversion to that erased type. -/
def RouterService.call (r : Router ε σ) (into : ε → ε') (req : Request σ) :
    Except ε' Response :=
  (r.serve req).mapError into

/-! ### Concrete fixtures used by witnesses and counterexamples -/

/-- A sample route handler returning a 200 response. -/
def handlerA : Handler String Unit := fun _ =>
  Except.ok { status := 200, body := "A" }

/-- A handler that always fails with the error value "boom". -/
def errHandler : Handler String Unit := fun _ =>
  Except.error "boom"

/-- A custom not-found handler, as in the not_found example of the
crate documentation. -/
def customNotFound : Handler String Unit := fun _ =>
  Except.ok { status := 404, body := "custom" }

/-- A handler over Nat shared state that reports whether the state
extension is present in its request context. -/
def stateProbe : Handler String Nat := fun req =>
  match req.state with
  | some _ => Except.ok { status := 200, body := "state" }
  | none => Except.error "nostate"

/-- A handler echoing the user1 and user2 captures. -/
def helloEcho : Handler String Unit := fun req =>
  match req.params with
  | some ps =>
      let u1 := (Params.find ps "user1").getD ""
      let u2 := (Params.find ps "user2").getD ""
      Except.ok { status := 200, body := u1 ++ "," ++ u2 }
  | none => Except.error "noparams"

/-- A handler echoing the wildcard capture named path. -/
def hiEcho : Handler String Unit := fun req =>
  match req.params with
  | some ps => Except.ok { status := 200, body := (Params.find ps "path").getD "" }
  | none => Except.error "noparams"

/-- An unmatched GET request with fresh (empty) extensions. -/
def reqGetZ : Request Unit :=
  { method := Method.GET, path := "/zzz", extParams := none, extState := none }

/-- A router with only a custom not-found handler and no route table
for any method. -/
def routerNF : Router String Unit :=
  Router.new.not_found customNotFound

/-- A router with one GET route and a custom not-found handler. -/
def routerC1 : Router String Unit :=
  (Router.new.get "/a" handlerA).not_found customNotFound

/-- A router with shared state 7, one GET route, and a not-found
handler, both probing for the state extension. -/
def routerC2 : Router String Nat :=
  ((Router.with_state 7).get "/a" stateProbe).not_found stateProbe

/-- A matched request for routerC2. -/
def reqC2m : Request Nat :=
  { method := Method.GET, path := "/a", extParams := none, extState := none }

/-- An unmatched request for routerC2. -/
def reqC2u : Request Nat :=
  { method := Method.GET, path := "/b", extParams := none, extState := none }

/-- A router with a single GET route whose handler always errors. -/
def routerC4 : Router String Unit :=
  Router.new.get "/e" errHandler

/-- A request matching the single route of routerC4 and routerC9. -/
def reqGetE : Request Unit :=
  { method := Method.GET, path := "/e", extParams := none, extState := none }

/-- The two-parameter example router from the spec. -/
def routerC5 : Router String Unit :=
  Router.new.get "/hello/:user1/from/:user2" helloEcho

/-- The request of the two-parameter example. -/
def reqC5 : Request Unit :=
  { method := Method.GET, path := "/hello/alice/from/bob",
    extParams := none, extState := none }

/-- The wildcard example router from the spec. -/
def routerC6 : Router String Unit :=
  Router.new.get "/hi/*path" hiEcho

/-- The request of the wildcard example. -/
def reqC6 : Request Unit :=
  { method := Method.GET, path := "/hi/a/b/c",
    extParams := none, extState := none }

/-- A router registering only the root path under GET. -/
def routerC7 : Router String Unit :=
  Router.new.get "/" handlerA

/-- A POST request for the root path. -/
def reqPostRoot : Request Unit :=
  { method := Method.POST, path := "/", extParams := none, extState := none }

/-- A router with one GET route and no not-found handler. -/
def routerC8 : Router String Unit :=
  Router.new.get "/a" handlerA

/-- A router identical in content to routerC4, used for the adapter
error-conversion witness. -/
def routerC9 : Router String Unit :=
  Router.new.get "/e" errHandler

/-- A router with one GET route and a custom not-found handler, used
for the not-found context witness. -/
def routerC10 : Router String Unit :=
  (Router.new.get "/a" handlerA).not_found customNotFound

/-! ### Claims -/

/-- C1, counterexample: routerNF has a not-found handler installed and
no table for GET, yet dispatching a GET request yields the synthesized
default response, not the output of the installed handler (whose output
at that request differs from the default). -/
theorem C1_counterexample :
    routerNF.notFound = some customNotFound ∧
    routerNF.inner Method.GET = none ∧
    routerNF.serve reqGetZ = Except.ok defaultNotFound ∧
    customNotFound reqGetZ = Except.ok { status := 404, body := "custom" } :=
  ⟨rfl, rfl, rfl, rfl⟩

/-- C1, amended: with a not-found handler installed, an unmatched
request whose method has a route table invokes that handler; but a
request whose method has no route table at all yields the synthesized
default response, bypassing the installed handler. -/
theorem C1_not_found_dispatch (r : Router ε σ) (req : Request σ)
    (h : Handler ε σ) (hnf : r.notFound = some h) :
    (∀ t, r.inner req.method = some t → recognize t req.path = none →
      r.serve req = h req) ∧
    (r.inner req.method = none → r.serve req = Except.ok defaultNotFound) := by
  constructor
  · intro t ht hm
    simp [Router.serve, ht, hm, hnf]
  · intro hnone
    simp [Router.serve, hnone]

/-- C1, witness: routerC1 has a GET table and a custom not-found
handler; the unmatched GET request is dispatched to that handler. -/
theorem C1_not_found_dispatch_witness :
    routerC1.serve reqGetZ = customNotFound reqGetZ :=
  (C1_not_found_dispatch routerC1 reqGetZ customNotFound rfl).1
    [(parsePattern "/a", handlerA)] rfl rfl

/-- C2, counterexample: routerC2 was constructed with shared state 7,
yet dispatching an unmatched request reaches the not-found handler with
no state extension attached (the probing handler observes `none` and
returns its "nostate" error), so the state is not attached identically
for matched and unmatched requests. -/
theorem C2_counterexample :
    routerC2.state = 7 ∧
    routerC2.serve reqC2u = Except.error "nostate" :=
  ⟨rfl, rfl⟩

/-- C2, amended: the shared state configured at construction is
attached to the request context of every matched request (together with
the Params), but requests on the not-found path are passed to the
not-found handler with their context unchanged, without the state. -/
theorem C2_state_only_matched (r : Router ε σ) (req : Request σ) :
    (∀ t h ps, r.inner req.method = some t →
      recognize t req.path = some (h, ps) →
      r.serve req
        = h { req with extParams := some ps, extState := some r.state } ∧
      Request.state { req with extParams := some ps, extState := some r.state }
        = some r.state) ∧
    (∀ h t, r.notFound = some h → r.inner req.method = some t →
      recognize t req.path = none → r.serve req = h req) := by
  constructor
  · intro t h ps ht hm
    exact ⟨by simp [Router.serve, ht, hm], rfl⟩
  · intro h t hnf ht hm
    simp [Router.serve, ht, hm, hnf]

/-- C2, witness: the matched request on routerC2 is dispatched to the
probing handler with the state extension set to the configured state 7. -/
theorem C2_state_only_matched_witness :
    routerC2.serve reqC2m
      = stateProbe { reqC2m with extParams := some [], extState := some 7 } ∧
    Request.state { reqC2m with extParams := some [], extState := some 7 }
      = some 7 :=
  (C2_state_only_matched routerC2 reqC2m).1
    [(parsePattern "/a", stateProbe)] stateProbe [] rfl rfl

/-- C3, counterexample: registering a pattern with a non-terminal
wildcard, and one with a duplicate parameter name, both succeed —
registration has no error path, no ConfigurationError is raised, and
the offending pattern is placed in the GET route table that dispatch
consults. -/
theorem C3_counterexample :
    (Router.new.get "/a/*w/c" handlerA).inner Method.GET
      = some [(parsePattern "/a/*w/c", handlerA)] ∧
    parsePattern "/a/*w/c"
      = [Segment.literal "", Segment.literal "a",
          Segment.wildcard (some "w"), Segment.literal "c"] ∧
    (Router.new.get "/x/:p/:p" handlerA).inner Method.GET
      = some [(parsePattern "/x/:p/:p", handlerA)] ∧
    parsePattern "/x/:p/:p"
      = [Segment.literal "", Segment.literal "x",
          Segment.param "p", Segment.param "p"] :=
  ⟨rfl, by decide, rfl, by decide⟩

/-- C3, amended: registration is total and performs no validation — for
every router, method, pattern and handler, registering appends the
parsed pattern to the route table of that method (creating the table on
first use) and cannot fail; no ConfigurationError exists in the code. -/
theorem C3_registration_total (r : Router ε σ) (m : Method) (path : String)
    (h : Handler ε σ) :
    (r.register m path h).inner m
      = some (((r.inner m).getD []) ++ [(parsePattern path, h)]) := by
  simp [Router.register]

/-- C4: when the method of the request has a route table and the path
matches a registered pattern, dispatch attaches the captured Params and
the shared state to the request context, invokes the matched handler on
that enriched request, and returns its output unchanged — including any
error it produces, since the equation holds for the whole
response-or-error value. -/
theorem C4_matched_dispatch (r : Router ε σ) (req : Request σ)
    (t : RouteTable ε σ) (h : Handler ε σ) (ps : Params)
    (ht : r.inner req.method = some t)
    (hm : recognize t req.path = some (h, ps)) :
    r.serve req
      = h { req with extParams := some ps, extState := some r.state } := by
  simp [Router.serve, ht, hm]

/-- C4, witness: the matched request on routerC4 is dispatched to the
erroring handler on the enriched context, and its error is returned
unchanged. -/
theorem C4_matched_dispatch_witness :
    routerC4.serve reqGetE
      = errHandler { reqGetE with extParams := some [], extState := some () } ∧
    routerC4.serve reqGetE = Except.error "boom" :=
  ⟨C4_matched_dispatch routerC4 reqGetE
      [(parsePattern "/e", errHandler)] errHandler [] rfl rfl,
    rfl⟩

/-- C5: matching /hello/:user1/from/:user2 against /hello/alice/from/bob
succeeds with Params finding user1 = alice and user2 = bob, and a full
dispatch through a router registering that pattern reaches a handler
that reads exactly those captures. -/
theorem C5_two_params :
    (matchSegments (parsePattern "/hello/:user1/from/:user2")
        (splitSlash "/hello/alice/from/bob")).map
      (fun ps => (Params.find ps "user1", Params.find ps "user2"))
      = some (some "alice", some "bob") ∧
    routerC5.serve reqC5 = Except.ok { status := 200, body := "alice,bob" } :=
  ⟨by decide, rfl⟩

/-- C6: matching /hi/*path against /hi/a/b/c succeeds, the terminal
wildcard capturing all remaining segments joined by the delimiter, so
Params finds path = a/b/c; a full dispatch through a router registering
that pattern observes the same capture. -/
theorem C6_wildcard_capture :
    (matchSegments (parsePattern "/hi/*path") (splitSlash "/hi/a/b/c")).map
      (fun ps => Params.find ps "path") = some (some "a/b/c") ∧
    routerC6.serve reqC6 = Except.ok { status := 200, body := "a/b/c" } :=
  ⟨by decide, rfl⟩

/-- C7: dispatch consults only the route table of the method of the
incoming request — whenever the path does not match under that method
(in particular when it is registered only under a different method),
the result is a not-found response: the default response, or the output
of the installed not-found handler on the unmodified request. -/
theorem C7_method_isolation (r : Router ε σ) (req : Request σ)
    (hunmatched : ∀ t, r.inner req.method = some t →
      recognize t req.path = none) :
    r.serve req = Except.ok defaultNotFound ∨
      ∃ h, r.notFound = some h ∧ r.serve req = h req := by
  cases hin : r.inner req.method with
  | none => exact Or.inl (by simp [Router.serve, hin])
  | some t =>
      have hm := hunmatched t hin
      cases hnf : r.notFound with
      | none => exact Or.inl (by simp [Router.serve, hin, hm, hnf])
      | some h => exact Or.inr ⟨h, rfl, by simp [Router.serve, hin, hm, hnf]⟩

/-- C7, witness: with only the root path registered under GET,
dispatching POST for the same path yields a not-found response. -/
theorem C7_method_isolation_witness :
    routerC7.serve reqPostRoot = Except.ok defaultNotFound ∨
      ∃ h, routerC7.notFound = some h ∧
        routerC7.serve reqPostRoot = h reqPostRoot :=
  C7_method_isolation routerC7 reqPostRoot (fun _t ht => nomatch ht)

/-- C8: with no not-found handler registered, every unmatched request —
whether the method has no table or the table exists but nothing matches
— yields the default not-found response, a successful (never erroring)
response with status 404 and an empty body. -/
theorem C8_default_response (r : Router ε σ) (req : Request σ)
    (hnf : r.notFound = none)
    (hunmatched : ∀ t, r.inner req.method = some t →
      recognize t req.path = none) :
    r.serve req = Except.ok defaultNotFound ∧
      defaultNotFound.status = 404 ∧ defaultNotFound.body = "" := by
  refine ⟨?_, rfl, rfl⟩
  cases hin : r.inner req.method with
  | none => simp [Router.serve, hin]
  | some t => simp [Router.serve, hin, hunmatched t hin, hnf]

/-- C8, witness: routerC8 has no not-found handler; an unmatched GET
request yields the default 404 response with empty body. -/
theorem C8_default_response_witness :
    routerC8.serve reqGetZ = Except.ok defaultNotFound ∧
      defaultNotFound.status = 404 ∧ defaultNotFound.body = "" :=
  C8_default_response routerC8 reqGetZ rfl
    (fun _t ht => Option.some.inj ht ▸ rfl)

/-- C9: an error produced by the matched handler passes through
Router::serve unchanged in value, and is converted to the erased error
type only at the service adapter boundary, where RouterService::call
applies the Into conversion. -/
theorem C9_error_passthrough (r : Router ε σ) (into : ε → ε')
    (req : Request σ) (t : RouteTable ε σ) (h : Handler ε σ) (ps : Params)
    (e : ε) (ht : r.inner req.method = some t)
    (hm : recognize t req.path = some (h, ps))
    (he : h { req with extParams := some ps, extState := some r.state }
      = Except.error e) :
    r.serve req = Except.error e ∧
      RouterService.call r into req = Except.error (into e) := by
  have hs : r.serve req = Except.error e := by simp [Router.serve, ht, hm, he]
  refine ⟨hs, ?_⟩
  unfold RouterService.call
  rw [hs]
  rfl

/-- C9, witness: the handler error "boom" leaves serve unchanged, and
the adapter call converts it with the supplied conversion (here string
length, giving 4). -/
theorem C9_error_passthrough_witness :
    routerC9.serve reqGetE = Except.error "boom" ∧
      RouterService.call routerC9 (fun s => s.length) reqGetE
        = Except.error 4 :=
  C9_error_passthrough routerC9 (fun s => s.length) reqGetE
    [(parsePattern "/e", errHandler)] errHandler [] "boom" rfl rfl rfl

/-- C10: on the not-found path with a custom handler, the request is
passed to the handler unchanged; for a host-delivered request with
empty extensions, the handler therefore observes params = none and
state = none. -/
theorem C10_not_found_context (r : Router ε σ) (req : Request σ)
    (h : Handler ε σ) (t : RouteTable ε σ)
    (hp : req.extParams = none) (hs : req.extState = none)
    (hnf : r.notFound = some h)
    (ht : r.inner req.method = some t)
    (hm : recognize t req.path = none) :
    r.serve req = h req ∧ req.params = none ∧ req.state = none :=
  ⟨by simp [Router.serve, ht, hm, hnf], hp, hs⟩

/-- C10, witness: the unmatched request on routerC10 reaches the custom
not-found handler carrying neither Params nor state. -/
theorem C10_not_found_context_witness :
    routerC10.serve reqGetZ = customNotFound reqGetZ ∧
      reqGetZ.params = none ∧ reqGetZ.state = none :=
  C10_not_found_context routerC10 reqGetZ customNotFound
    [(parsePattern "/a", handlerA)] rfl rfl rfl rfl rfl
